import Mathlib

/-!
Verification of the serial framing / dispatch layer and the AT-command
protocol layer of the `pyrak811` driver (files `rak811/serial.py`,
`rak811/rak811.py`, `rak811/rak811_v3.py`), as a shallow embedding.

Python strings are modelled as Lean `String`, operated on through their
character lists; Python values that may be `int`, `str` or `bytes`
(the driver's `_int` results and downlink payloads) are modelled by `PyVal`;
raised exceptions are modelled by `Except PyErr`.
-/

namespace Rak811Spec

/-- A Python value as it can appear in the driver's records: the result of
`_int` (an `int` or the original `str`), or a `bytes` payload. -/
inductive PyVal where
  | int (i : Int)
  | str (s : String)
  | bytes (bs : List Nat)
deriving DecidableEq, Repr

/-- The exceptions the modelled code can raise. -/
inductive PyErr where
  | attributeError (name : String)
  | indexError
  | typeError
  | timeoutError
  | responseErrorA (errno : PyVal) (strerror : String)
  | eventError (errno : PyVal) (strerror : String)
  | responseErrorB (errno : PyVal) (strerror : String)
deriving DecidableEq, Repr

instance {ε α : Type} [DecidableEq ε] [DecidableEq α] : DecidableEq (Except ε α) :=
  fun x y =>
    match x, y with
    | .ok a, .ok b =>
      if h : a = b then .isTrue (congrArg Except.ok h)
      else .isFalse (fun hc => h (Except.ok.inj hc))
    | .error e, .error f =>
      if h : e = f then .isTrue (congrArg Except.error h)
      else .isFalse (fun hc => h (Except.error.inj hc))
    | .ok _, .error _ => .isFalse (fun hc => Except.noConfusion hc)
    | .error _, .ok _ => .isFalse (fun hc => Except.noConfusion hc)

/-! ## Python string primitives -/

/-- Literal prefix test on character lists. -/
def startsWithL : List Char → List Char → Bool
  | [], _ => true
  | _ :: _, [] => false
  | p :: ps, c :: cs => p == c && startsWithL ps cs

/-- Python `s.startswith(patt)`. -/
def pyStartswith (s patt : String) : Bool :=
  startsWithL patt.data s.data

/-- Python `len(s)` (character count). -/
def pyLen (s : String) : Nat := s.data.length

/-- Python `s[n:]` (drop the first `n` characters). -/
def pyDropChars (s : String) (n : Nat) : String :=
  String.mk (s.data.drop n)

/-- Numeric value of a list of decimal digits. -/
def digitsToNat (cs : List Char) : Nat :=
  cs.foldl (fun n c => 10 * n + (c.toNat - '0'.toNat)) 0

/-- Leading and trailing ASCII whitespace, which Python `int(s)` ignores. -/
def pyStripWS (cs : List Char) : List Char :=
  ((cs.dropWhile Char.isWhitespace).reverse.dropWhile Char.isWhitespace).reverse

/-- Python `int(s)` restricted to the shapes the protocol produces: optional
surrounding whitespace, then an optional sign followed by ASCII digits
(digit-group underscores never occur here).  Returns `none` when
`int(s)` would raise `ValueError`. -/
def pyParseInt (s : String) : Option Int :=
  match pyStripWS s.data with
  | '-' :: cs =>
      if cs ≠ [] ∧ cs.all Char.isDigit then some (-(digitsToNat cs : Int)) else none
  | '+' :: cs =>
      if cs ≠ [] ∧ cs.all Char.isDigit then some ((digitsToNat cs : Int)) else none
  | cs =>
      if cs ≠ [] ∧ cs.all Char.isDigit then some ((digitsToNat cs : Int)) else none

/-- `Rak811._int`: attempt int conversion, fall back to the original string
(`rak811.py` lines 203-209, identical in `rak811_v3.py`). -/
def pyIntVal (s : String) : PyVal :=
  match pyParseInt s with
  | some i => .int i
  | none => .str s

/-- Value of a hexadecimal digit. -/
def hexVal (c : Char) : Option Nat :=
  if c.isDigit then some (c.toNat - '0'.toNat)
  else if 'a' ≤ c ∧ c ≤ 'f' then some (c.toNat - 'a'.toNat + 10)
  else if 'A' ≤ c ∧ c ≤ 'F' then some (c.toNat - 'A'.toNat + 10)
  else none

/-- Hex-digit pairs to bytes. -/
def fromhexPairs : List Char → Option (List Nat)
  | [] => some []
  | [_] => none
  | c1 :: c2 :: rest =>
      match hexVal c1, hexVal c2, fromhexPairs rest with
      | some h, some l, some bs => some ((16 * h + l) :: bs)
      | _, _, _ => none

/-- Python `bytes.fromhex(s)`: two hexadecimal digits per byte, spaces
between bytes skipped; `none` models a `ValueError`. -/
def pyFromhex (s : String) : Option (List Nat) :=
  fromhexPairs (s.data.filter (fun c => c ≠ ' '))

/-- Python `s.split(',')` on character lists: always at least one field. -/
def splitCommaL : List Char → List (List Char)
  | [] => [[]]
  | c :: cs =>
    if c = ',' then [] :: splitCommaL cs
    else
      match splitCommaL cs with
      | f :: r => (c :: f) :: r
      | [] => [[c]]

/-- Python `s.split(',')`. -/
def splitComma (s : String) : List String :=
  (splitCommaL s.data).map String.mk

/-! ## `serial.py`: line transport and reader loop -/

/-- `EOL = '\r\n'`: `line.rstrip(EOL)` strips trailing characters drawn from
the set `{'\r', '\n'}`. -/
def rstripCRLF (s : String) : String :=
  String.mk ((s.data.reverse.dropWhile (fun c => c == '\r' || c == '\n')).reverse)

/-- A raw line as delivered by `Serial.readline`: either ASCII bytes that
decode to a string, or bytes on which `.decode('ascii')` raises
`UnicodeDecodeError`. -/
inductive RawLine where
  | ascii (s : String)
  | undecodable
deriving DecidableEq, Repr

/-- `serial.py` lines 111-115: `line.decode('ascii').rstrip(EOL)`, with the
sentinel `'?'` substituted on a decode failure. -/
def decodeLine : RawLine → String
  | .ascii s => rstripCRLF s
  | .undecodable => "?"

/-- `match(r'^(OK|ERROR|at+)', line)` (`serial.py` line 116): `'a'` followed
by one or more `'t'` — the `+` quantifies the literal `t`, so the
alternative accepts exactly the lines whose first two characters are
`"at"`. -/
def atPlusL : List Char → Bool
  | c1 :: c2 :: _ => c1 == 'a' && c2 == 't'
  | _ => false

/-- The reader loop's classification test, `match(r'^(OK|ERROR|at+)', line)`
(`serial.py` line 116): an anchored match of the alternation of the
literal `OK`, the literal `ERROR`, and `a` followed by one or more `t`. -/
def taggedMatch (line : String) : Bool :=
  startsWithL ['O', 'K'] line.data || startsWithL ['E', 'R', 'R', 'O', 'R'] line.data
    || atPlusL line.data

/-- `serial.py` lines 116-123: a line is appended to `_read_buffer` when the
regex matches, or when the instance was created with `keep_untagged`. -/
def keepLine (keep_untagged : Bool) (line : String) : Bool :=
  taggedMatch line || keep_untagged

/-- One iteration of the inner drain loop of `_read_loop` (`serial.py` lines
110-124): decode the raw line and append it, unmodified, to the buffer
when `keepLine` holds. -/
def processLine (keep_untagged : Bool) (buffer : List String) (raw : RawLine) :
    List String :=
  let line := decodeLine raw
  if keepLine keep_untagged line then buffer ++ [line] else buffer

/-- One full drain burst of `_read_loop`: lines are read and processed one
by one while `in_waiting > 0` keeps the burst alive. -/
def processBurst (keep_untagged : Bool) (buffer : List String) (burst : List RawLine) :
    List String :=
  burst.foldl (processLine keep_untagged) buffer

/-- The reader loop over a sequence of bursts (`serial.py` lines 105-130).
Returns the final buffer together with the buffer contents visible at
each `notify()` (line 129-130: the condition is notified after a burst
completes, only when the buffer is non-empty). -/
def readLoopGo (keep_untagged : Bool) : List (List RawLine) → List String →
    List String × List (List String)
  | [], buffer => (buffer, [])
  | b :: bs, buffer =>
    let buffer2 := processBurst keep_untagged buffer b
    let next := readLoopGo keep_untagged bs buffer2
    (next.1, if buffer2.isEmpty then next.2 else buffer2 :: next.2)

/-- Final `_read_buffer` contents after the reader loop has consumed all
bursts, starting from an empty buffer, with no concurrent consumer. -/
def readLoopFinal (keep_untagged : Bool) (bursts : List (List RawLine)) : List String :=
  (readLoopGo keep_untagged bursts []).1

/-- The buffer contents a waiter can observe at each `notify()`. -/
def readLoopNotifications (keep_untagged : Bool) (bursts : List (List RawLine)) :
    List (List String) :=
  (readLoopGo keep_untagged bursts []).2

/-! ## `serial.py`: `Rak811Serial.receive` -/

/-- The value returned by `receive`: a single line (`single=True`) or the
whole buffer (`single=False`), Python's `Union[str, List[str]]`. -/
inductive Received where
  | one (line : String)
  | all (lines : List String)
deriving DecidableEq, Repr

/-- `Rak811Serial.receive` (`serial.py` lines 132-162) as a function of the
buffer contents at the moment the condition-variable wait resolves: an
empty buffer at expiry raises `Rak811TimeoutError`; otherwise `single`
pops the oldest entry (`pop(0)`) and `not single` takes the whole buffer
and replaces it with `[]`.  The second component is the buffer left
behind. -/
def receive (single : Bool) (buffer : List String) :
    Except PyErr (Received × List String) :=
  match buffer with
  | [] => .error .timeoutError
  | l :: rest =>
    if single then .ok (.one l, rest) else .ok (.all (l :: rest), [])

/-- The attribute names defined on `Rak811Serial` (`serial.py` lines 52-171:
the methods of the class body and the instance attributes assigned in
`__init__`). -/
def serialAttrNames : List String :=
  ["_read_buffer_timeout", "_serial", "_keep_untagged", "_cv_serial",
   "_read_buffer", "_read_done", "_read_thread", "_alive",
   "close", "_read_loop", "receive", "send_string", "send_command"]

/-- Python attribute lookup on a `Rak811Serial` instance: a name outside
`serialAttrNames` raises `AttributeError`. -/
def serialHasAttr (name : String) : Bool :=
  serialAttrNames.contains name

/-! ## `rak811.py`: Dialect A protocol layer -/

/-- `rak811.py` lines 31-33. -/
def RESPONSE_OK : String := "OK"

/-- `rak811.py` lines 31-33. -/
def RESPONSE_ERROR : String := "ERROR"

/-- `rak811.py` line 33 and `rak811_v3.py` line 37. -/
def RESPONSE_EVENT : String := "at+recv="

/-- `ERROR_MESSAGE` (`rak811.py` lines 54-67), keyed by the `ErrorCode`
values of lines 37-51. -/
def errorMessageA (c : Int) : Option String :=
  if c = -1 then some "Invalid argument"
  else if c = -2 then some "Argument not found"
  else if c = -3 then some "ABP join error"
  else if c = -4 then some "OTAA join error"
  else if c = -5 then some "Not joined"
  else if c = -6 then some "MAC busy"
  else if c = -7 then some "Transmit error"
  else if c = -8 then some "Inter error"
  else if c = -11 then some "Write configuration error"
  else if c = -12 then some "Read configuration Error"
  else if c = -13 then some "Transmit len limit error"
  else if c = -20 then some "Unknown error"
  else none

/-- `EVENT_MESSAGE` (`rak811.py` lines 86-98), keyed by the `EventCode`
values of lines 70-83. -/
def eventMessageA (c : Int) : Option String :=
  if c = 0 then some "Received data"
  else if c = 1 then some "Tx confirmed"
  else if c = 2 then some "Tx unconfirmed"
  else if c = 3 then some "Join succeded"
  else if c = 4 then some "Join failed"
  else if c = 5 then some "Tx timeout"
  else if c = 6 then some "Rx2 timeout"
  else if c = 7 then some "Downlink repeated"
  else if c = 8 then some "Wake up"
  else if c = 9 then some "P2P tx complete"
  else if c = 100 then some "Unknown"
  else none

/-- `Rak811ResponseError.__init__` (`rak811.py` lines 131-142): `errno` is
the int conversion of `code` when it parses, the raw value otherwise;
`strerror` is looked up in `ERROR_MESSAGE`, falling back to the
`UNKNOWN_ERR` entry. -/
def mkResponseErrorA (code : String) : PyErr :=
  let e := pyIntVal code
  .responseErrorA e
    (match e with
     | .int i => (errorMessageA i).getD "Unknown error"
     | _ => "Unknown error")

/-- `Rak811EventError.__init__` (`rak811.py` lines 154-165), on an already
`_int`-converted status. -/
def mkEventErrorA (status : PyVal) : PyErr :=
  .eventError status
    (match status with
     | .int i => (eventMessageA i).getD "Unknown"
     | _ => "Unknown")

/-- The response-handling loop of `Rak811._send_command` (`rak811.py` lines
226-237), over the stream of lines its `get_response()` calls would
deliver: event-marker lines are skipped, `OK`-tagged lines return the
remainder, `ERROR`-tagged lines raise `Rak811ResponseError` with the
parsed code, anything else raises `Rak811ResponseError` on the raw line.
An exhausted stream stands for a read timeout. -/
def sendCommandProcess : List String → Except PyErr String
  | [] => .error .timeoutError
  | response :: rest =>
    if pyStartswith response RESPONSE_EVENT then sendCommandProcess rest
    else if pyStartswith response RESPONSE_OK then
      .ok (pyDropChars response (pyLen RESPONSE_OK))
    else if pyStartswith response RESPONSE_ERROR then
      .error (mkResponseErrorA (pyDropChars response (pyLen RESPONSE_ERROR)))
    else .error (mkResponseErrorA response)

/-- `Rak811._send_command` (`rak811.py` lines 215-237): after
`self._serial.send_command(command)` it evaluates
`self._serial.get_response()` — an attribute lookup on the
`Rak811Serial` instance.  `buffered` is the stream of lines the loop
would consume were the attribute defined. -/
def sendCommandA (_command : String) (buffered : List String) : Except PyErr String :=
  if serialHasAttr "get_response" then sendCommandProcess buffered
  else .error (.attributeError "get_response")

/-- `Rak811._get_events` (`rak811.py` lines 239-246): evaluates
`self._serial.get_events(timeout)`; the list comprehension strips the
event marker from each line. -/
def getEventsA (_timeout : Option Nat) (buffered : List String) :
    Except PyErr (List String) :=
  if serialHasAttr "get_events" then
    .ok (buffered.map (fun i => pyDropChars i (pyLen RESPONSE_EVENT)))
  else .error (.attributeError "get_events")

/-- A downlink record (`rak811.py` lines 466-474 / `rak811_v3.py` lines
339-347): the dict `{'port', 'rssi', 'snr', 'len', 'data'}`. -/
structure Downlink where
  port : PyVal
  rssi : PyVal
  snr : PyVal
  len : PyVal
  data : PyVal
deriving DecidableEq, Repr

/-- The data-field handling of `Rak811._add_downlink` (`rak811.py` lines
459-465): `bytes.fromhex(event[0])` with `ValueError` caught and mapped
to the empty string `''`. -/
def hexDataA (d : String) : PyVal :=
  match pyFromhex d with
  | some bs => .bytes bs
  | none => .str ""

/-- The tail of `Rak811._add_downlink` after the port/rssi/snr pops
(`rak811.py` lines 458-474): pop the length, and when it is positive
read `event[0]` as hex data.  `event.pop(0)` and `event[0]` on an empty
list raise `IndexError`; comparing a non-int length with `0` raises
`TypeError`. -/
def finishLen (r_port r_rssi r_snr r_len : PyVal) (event : List String) :
    Except PyErr Downlink :=
  match r_len with
  | .int n =>
    if n > 0 then
      match event with
      | [] => .error .indexError
      | d :: _ => .ok ⟨r_port, r_rssi, r_snr, .int n, hexDataA d⟩
    else .ok ⟨r_port, r_rssi, r_snr, .int n, .str ""⟩
  | _ => .error .typeError

/-- The `r_len = self._int(event.pop(0))` step feeding `finishLen`
(`rak811.py` line 458). -/
def finishA (r_port r_rssi r_snr : PyVal) (event : List String) :
    Except PyErr Downlink :=
  match event with
  | [] => .error .indexError
  | l0 :: rest => finishLen r_port r_rssi r_snr (pyIntVal l0) rest

/-- `Rak811._add_downlink` (`rak811.py` lines 446-474): pop the port; when
more than two fields remain pop rssi and snr, otherwise default both to
`0`; then handle length and data. -/
def addDownlinkA : List String → Except PyErr Downlink
  | [] => .error .indexError
  | e0 :: e1 :: e2 :: e3 :: rest =>
    finishA (pyIntVal e0) (pyIntVal e1) (pyIntVal e2) (e3 :: rest)
  | e0 :: rest =>
    finishA (pyIntVal e0) (.int 0) (.int 0) rest

/-- `event.split(',')[0]` followed by `self._int` (`rak811.py` lines
490-492 and 497-498). -/
def statusOf (event : String) : PyVal :=
  pyIntVal ((splitComma event).headD "")

/-- `event_items` after `event_items.pop(0)` (`rak811.py` lines 490-491). -/
def fieldsAfterStatus (event : String) : List String :=
  (splitComma event).tail

/-- The downlink-extraction pass of `Rak811._process_events` (`rak811.py`
lines 487-494) threading the `self._downlink` list: each event whose
status is `EventCode.RECV_DATA` is parsed and appended; an exception
from `_add_downlink` propagates, keeping the appends made so far. -/
def pass1A : List String → List Downlink → List Downlink × Option PyErr
  | [], dl => (dl, none)
  | ev :: evs, dl =>
    if statusOf ev = .int 0 then
      match addDownlinkA (fieldsAfterStatus ev) with
      | .ok d => pass1A evs (dl ++ [d])
      | .error e => (dl, some e)
    else pass1A evs dl

/-- `status in (RECV_DATA, TX_COMFIRMED, TX_UNCOMFIRMED)` (`rak811.py`
lines 499-501). -/
def goodStatus (v : PyVal) : Bool :=
  v = .int 0 || v = .int 1 || v = .int 2

/-- The error-check pass of `Rak811._process_events` (`rak811.py` lines
496-502): raise `Rak811EventError` on the first event whose status is
not an accepted code. -/
def pass2A : List String → Option PyErr
  | [] => none
  | ev :: evs =>
    if goodStatus (statusOf ev) then pass2A evs else some (mkEventErrorA (statusOf ev))

/-- The status of the first event the error-check pass rejects. -/
def firstBadA (events : List String) : Option PyVal :=
  (events.find? (fun ev => !goodStatus (statusOf ev))).map statusOf

/-- The body of `Rak811._process_events` (`rak811.py` lines 487-502) on an
already-fetched event batch: the downlink pass runs over the whole
batch, then the error-check pass.  Returns the `self._downlink` list
after the call together with the exception raised, if any. -/
def processEventsA (events : List String) (dl : List Downlink) :
    List Downlink × Option PyErr :=
  match pass1A events dl with
  | (dl2, some e) => (dl2, some e)
  | (dl2, none) => (dl2, pass2A events)

/-- `Rak811.get_downlink` (`rak811.py` lines 532-545): pop the oldest
entry, `None` when the list is empty. -/
def getDownlink : List Downlink → Option Downlink × List Downlink
  | [] => (none, [])
  | d :: rest => (some d, rest)

/-- `Rak811.nb_downlinks` (`rak811.py` lines 527-530). -/
def nbDownlinks (dl : List Downlink) : Nat := dl.length

/-! ## `rak811_v3.py`: Dialect B protocol layer -/

/-- `rak811_v3.py` line 34. -/
def V3_RESPONSE_OK : String := "OK "

/-- `rak811_v3.py` line 35. -/
def V3_RESPONSE_INIT_OK : String := "Initialization OK"

/-- `rak811_v3.py` line 36. -/
def V3_RESPONSE_ERROR : String := "ERROR:"

/-- `ERROR_MESSAGE` (`rak811_v3.py` lines 89-123).  The enum aliases
`ERR_103 = 102` (line 83), so the dict entry for `ERR_103` overwrites
the key `102` and code `103` is absent from the table. -/
def errorMessageB (c : Int) : Option String :=
  if c = 1 then some "Unsupported AT command"
  else if c = 2 then some "Invalid parameter in AT command"
  else if c = 3 then some "Error when reading or writing flash"
  else if c = 4 then some "Error reading or writing IIC"
  else if c = 5 then some "Error sending through UART"
  else if c = 41 then some "BLE in invalid state"
  else if c = 80 then some "LoRa busy"
  else if c = 81 then some "LoRa service unknown"
  else if c = 82 then some "Invalid LoRa parameters"
  else if c = 83 then some "Invalid LoRa frequency"
  else if c = 84 then some "Invalid LoRa datarate (DR)"
  else if c = 85 then some "Invalid LoRa frequency and datarate"
  else if c = 86 then some "Device has not joined LoRa network"
  else if c = 87 then some "Packet length too long"
  else if c = 88 then some "Service closed by server"
  else if c = 89 then some "Unsupported region."
  else if c = 90 then some "Restricted duty cycle"
  else if c = 91 then some "No valid channel can be found."
  else if c = 92 then some "No free channel found"
  else if c = 93 then some "Status is error"
  else if c = 94 then some "LoRa transmiting timeout"
  else if c = 95 then some "LoRa RX1 timeout"
  else if c = 96 then some "LoRa RX2 timeout"
  else if c = 97 then some "Error receiving RX1"
  else if c = 98 then some "Error  receiving RX2"
  else if c = 99 then some "LoRa join failed"
  else if c = 100 then some "Repeated downlink"
  else if c = 101 then some "Payload size error with transmit DR"
  else if c = 102 then some "Address fail"
  else if c = 104 then some "Error verifying MIC"
  else if c = 998 then some "Invalid event received"
  else if c = 999 then some "Unknown error"
  else none

/-- `strerror` lookup of the v3 `Rak811ResponseError` (`rak811_v3.py` lines
142-145). -/
def strerrorB (v : PyVal) : String :=
  match v with
  | .int i => (errorMessageB i).getD "Unknown error"
  | _ => "Unknown error"

/-- v3 `Rak811ResponseError.__init__` (`rak811_v3.py` lines 135-146) on a
string code. -/
def mkResponseErrorB (code : String) : PyErr :=
  let e := pyIntVal code
  .responseErrorB e (strerrorB e)

/-- The skip-loop condition of v3 `Rak811._send_command` (`rak811_v3.py`
lines 248-250): the line is a terminal response line. -/
def isTerminalB (l : String) : Bool :=
  pyStartswith l V3_RESPONSE_OK || pyStartswith l V3_RESPONSE_INIT_OK
    || pyStartswith l V3_RESPONSE_ERROR

/-- The terminal-line handling of v3 `Rak811._send_command` (`rak811_v3.py`
lines 253-258); only applied to lines satisfying `isTerminalB`. -/
def parseTerminalB (response : String) : Except PyErr String :=
  if pyStartswith response V3_RESPONSE_ERROR then
    .error (mkResponseErrorB (pyDropChars response (pyLen V3_RESPONSE_ERROR)))
  else if pyStartswith response V3_RESPONSE_INIT_OK then
    .ok (pyDropChars response (pyLen V3_RESPONSE_INIT_OK))
  else .ok (pyDropChars response (pyLen V3_RESPONSE_OK))

/-- The receive loop of v3 `Rak811._send_command` (`rak811_v3.py` lines
244-258) over the stream of lines the successive `receive` calls
return.  `w` is the timeout argument the pending `receive` call was
given; the recursive call passes `rt`, the driver's
`_response_timeout`, because `self._serial.receive()` is called with
no timeout and the v3 constructor set `read_buffer_timeout` to
`_response_timeout` (`rak811_v3.py` lines 164-170).  Returns the list
of timeouts used by the `receive` calls, in order, alongside the
result; an exhausted stream stands for a read timeout on the last
`receive`. -/
def scV3Go (rt : Nat) : Nat → List String → List Nat × Except PyErr String
  | w, [] => ([w], .error .timeoutError)
  | w, l :: ls =>
    if isTerminalB l then ([w], parseTerminalB l)
    else
      let rest := scV3Go rt rt ls
      (w :: rest.1, rest.2)

/-- v3 `Rak811._send_command` (`rak811_v3.py` lines 224-258): the first
`receive` uses the caller's timeout when given, else the default
`_response_timeout` `rt`. -/
def sendCommandV3 (rt : Nat) (timeout : Option Nat) (lines : List String) :
    List Nat × Except PyErr String :=
  scV3Go rt (timeout.getD rt) lines

/-- The scan of one received batch by v3 `Rak811._send_command_list`. -/
inductive ScanResult where
  | ok (lines : List String)
  | err (e : PyErr)
  | more (accumulated : List String)
deriving DecidableEq, Repr

/-- The inner examination of `response[0]` by v3 `Rak811._send_command_list`
(`rak811_v3.py` lines 282-296): the head of the remaining batch is
tested against `OK `, `Initialization OK` and `ERROR:`; a success
marker is stripped in place and `prelude + response` returned; an
error marker raises; anything else is popped onto `prelude`. -/
def sclBatch : List String → List String → ScanResult
  | acc, [] => .more acc
  | acc, r :: rs =>
    if pyStartswith r V3_RESPONSE_OK then
      .ok (acc ++ pyDropChars r (pyLen V3_RESPONSE_OK) :: rs)
    else if pyStartswith r V3_RESPONSE_INIT_OK then
      .ok (acc ++ pyDropChars r (pyLen V3_RESPONSE_INIT_OK) :: rs)
    else if pyStartswith r V3_RESPONSE_ERROR then
      .err (mkResponseErrorB (pyDropChars r (pyLen V3_RESPONSE_ERROR)))
    else sclBatch (acc ++ [r]) rs

/-- The outer loop of v3 `Rak811._send_command_list` (`rak811_v3.py` lines
280-297) over the successive `receive(single=False)` batches: when the
current batch is exhausted without a terminal line the next batch is
fetched; an exhausted batch stream stands for `receive` raising the
read timeout. -/
def sclBatches : List String → List (List String) → Except PyErr (List String)
  | _, [] => .error .timeoutError
  | acc, b :: bs =>
    match sclBatch acc b with
    | .ok lines => .ok lines
    | .err e => .error e
    | .more acc2 => sclBatches acc2 bs

/-- v3 `Rak811._send_command_list` (`rak811_v3.py` lines 260-297). -/
def sendCommandList (batches : List (List String)) : Except PyErr (List String) :=
  sclBatches [] batches

/-- v3 `Rak811._get_events` (`rak811_v3.py` lines 299-316): strip the event
marker from each line of a `receive(single=False)` batch, tolerating
unmarked lines. -/
def getEventsB (batch : List String) : List String :=
  batch.map (fun i =>
    if pyStartswith i RESPONSE_EVENT then pyDropChars i (pyLen RESPONSE_EVENT) else i)

/-! ### The v3 event regex

`match(r'((\d+),)?(-?\d+),(-?\d+),(\d+)(:(.*))?$', event)`
(`rak811_v3.py` line 368).  The match is anchored at the start by
`re.match` and at the end by `$`.  Each `\d+`/`-?\d+` is a maximal
digit run followed by a forced separator, so the only genuine
backtracking point is the optional port group: the engine first tries
to read `(\d+),` and falls back to the portless alternative when the
rest of the pattern fails. -/

/-- `\d+`: a maximal non-empty digit run; returns the run and the rest. -/
def matchUIntL (cs : List Char) : Option (String × List Char) :=
  let ds := cs.takeWhile Char.isDigit
  if ds.isEmpty then none else some (String.mk ds, cs.dropWhile Char.isDigit)

/-- `-?\d+`. -/
def matchIntL (cs : List Char) : Option (String × List Char) :=
  match cs with
  | '-' :: rest => (matchUIntL rest).map (fun p => (String.mk ('-' :: p.1.data), p.2))
  | _ => matchUIntL cs

/-- A forced literal comma. -/
def matchCommaL : List Char → Option (List Char)
  | ',' :: rest => some rest
  | _ => none

/-- `(-?\d+),(-?\d+),(\d+)(:(.*))?$`: the part of the event regex after the
optional port group.  Returns `(rssi, snr, len, data)`. -/
def matchTailB (cs : List Char) : Option (String × String × String × Option String) := do
  let (rssi, r1) ← matchIntL cs
  let r2 ← matchCommaL r1
  let (snr, r3) ← matchIntL r2
  let r4 ← matchCommaL r3
  let (len, r5) ← matchUIntL r4
  match r5 with
  | [] => some (rssi, snr, len, none)
  | ':' :: ds => some (rssi, snr, len, some (String.mk ds))
  | _ => none

/-- The whole event regex: try the port group `((\d+),)?` first, fall back
to the portless match.  Returns `(port?, rssi, snr, len, data?)`, the
groups used by `_process_events`. -/
def eventMatchB (ev : String) :
    Option (Option String × String × String × String × Option String) :=
  let noPort := (matchTailB ev.data).map (fun t => (none, t.1, t.2.1, t.2.2.1, t.2.2.2))
  match matchUIntL ev.data with
  | some (p, rest) =>
    match matchCommaL rest with
    | some rest2 =>
      match matchTailB rest2 with
      | some t => some (some p, t.1, t.2.1, t.2.2.1, t.2.2.2)
      | none => noPort
    | none => noPort
  | none => noPort

/-- The data-field handling of v3 `Rak811._add_downlink` (`rak811_v3.py`
lines 332-338): `bytes.fromhex(data)` with `ValueError` caught and
mapped to `b''`. -/
def hexDataB (d : String) : PyVal :=
  match pyFromhex d with
  | some bs => .bytes bs
  | none => .bytes []

/-- v3 `Rak811._add_downlink` (`rak811_v3.py` lines 318-347): a `None` port
defaults to `0`; when the length is positive, `bytes.fromhex(data)`
raises `TypeError` if the regex matched without a data group (`data`
is `None`); comparing a non-int length with `0` raises `TypeError`. -/
def addDownlinkB (port : Option String) (rssi snr length : String)
    (data : Option String) : Except PyErr Downlink :=
  let r_port := match port with
    | none => PyVal.int 0
    | some p => pyIntVal p
  let r_rssi := pyIntVal rssi
  let r_snr := pyIntVal snr
  match pyIntVal length with
  | .int n =>
    if n > 0 then
      match data with
      | none => .error .typeError
      | some d => .ok ⟨r_port, r_rssi, r_snr, .int n, hexDataB d⟩
    else .ok ⟨r_port, r_rssi, r_snr, .int n, .bytes []⟩
  | _ => .error .typeError

/-- One event of the loop of v3 `Rak811._process_events` (`rak811_v3.py`
lines 365-373): a regex match feeds `_add_downlink`; a failed match
raises `Rak811ResponseError(ErrorCode.ERR_INVALID_EVENT)` (code 998). -/
def processOneB (ev : String) : Except PyErr Downlink :=
  match eventMatchB ev with
  | some g => addDownlinkB g.1 g.2.1 g.2.2.1 g.2.2.2.1 g.2.2.2.2
  | none => .error (.responseErrorB (.int 998) (strerrorB (.int 998)))

/-- The loop of v3 `Rak811._process_events` over an already-fetched event
batch, threading `self._downlink`: the first exception aborts the loop,
keeping the downlinks appended before it. -/
def processEventsB (events : List String) (dl : List Downlink) :
    List Downlink × Option PyErr :=
  match events with
  | [] => (dl, none)
  | ev :: evs =>
    match processOneB ev with
    | .ok d => processEventsB evs (dl ++ [d])
    | .error e => (dl, some e)

/-! ## Configuration surface of `Rak811Serial` -/

/-- The per-instance configuration `Rak811Serial.__init__` accepts
(`serial.py` lines 55-61): serial port path and speed, the native read
timeout, the response timeout, and the untagged-line retention flag.
No marker strings appear among the parameters. -/
structure SerialConfig where
  port : String
  baudrate : Nat
  timeout : Nat
  read_buffer_timeout : Nat
  keep_untagged : Bool
deriving DecidableEq, Repr

/-- The classification test as performed for an instance constructed from
`cfg`: `_read_loop` (`serial.py` line 116) applies the hard-coded regex
and consults no field of the instance for it. -/
def taggedOf (_cfg : SerialConfig) (line : String) : Bool :=
  taggedMatch line

/-- The appended-to-buffer decision for an instance constructed from `cfg`
(`serial.py` lines 116-123). -/
def appendDecision (cfg : SerialConfig) (line : String) : Bool :=
  taggedOf cfg line || cfg.keep_untagged

/-- Modelled from the spec: §4.2 describes the Line Classifier as "a simple
literal-prefix test against the three known prefixes" with the marker
strings configurable per driver instantiation (§4.2, §6); this is that
specified classifier, kept separate from the implemented `taggedMatch`
for comparison. -/
def specLiteralTagged (successMarker errorMarker eventMarker line : String) : Bool :=
  pyStartswith line successMarker || pyStartswith line errorMarker
    || pyStartswith line eventMarker

/-! ## Lemmas about the reader loop -/

lemma processBurst_eq (k : Bool) (buffer : List String) (burst : List RawLine) :
    processBurst k buffer burst
      = buffer ++ (burst.map decodeLine).filter (keepLine k) := by
  induction burst generalizing buffer with
  | nil => simp [processBurst]
  | cons r rest ih =>
    have hstep : processBurst k buffer (r :: rest)
        = processBurst k (processLine k buffer r) rest := rfl
    rw [hstep, ih]
    by_cases h : keepLine k (decodeLine r) = true
    · simp [processLine, h, List.filter_cons, List.append_assoc]
    · simp [processLine, h, List.filter_cons]

lemma readLoopGo_fst (k : Bool) (bursts : List (List RawLine)) :
    ∀ buffer, (readLoopGo k bursts buffer).1
      = buffer ++ (bursts.flatten.map decodeLine).filter (keepLine k) := by
  induction bursts with
  | nil => intro buffer; simp [readLoopGo]
  | cons b bs ih =>
    intro buffer
    show (readLoopGo k bs (processBurst k buffer b)).1 = _
    rw [ih, processBurst_eq]
    simp [List.map_append, List.filter_append, List.append_assoc]

lemma readLoopGo_notifications (k : Bool) (bursts : List (List RawLine)) :
    ∀ buffer obs, obs ∈ (readLoopGo k bursts buffer).2 →
      obs ≠ []
      ∧ ∃ m, obs = buffer ++ ((bursts.take m).flatten.map decodeLine).filter (keepLine k) := by
  induction bursts with
  | nil => intro buffer obs h; simp [readLoopGo] at h
  | cons b bs ih =>
    intro buffer obs h
    have hshape : (readLoopGo k (b :: bs) buffer).2
        = (if (processBurst k buffer b).isEmpty
           then (readLoopGo k bs (processBurst k buffer b)).2
           else processBurst k buffer b :: (readLoopGo k bs (processBurst k buffer b)).2) :=
      rfl
    rw [hshape] at h
    by_cases he : (processBurst k buffer b).isEmpty
    · rw [if_pos he] at h
      obtain ⟨hne, m, hm⟩ := ih (processBurst k buffer b) obs h
      refine ⟨hne, m + 1, ?_⟩
      rw [hm, processBurst_eq]
      simp [List.take_succ_cons, List.map_append, List.filter_append, List.append_assoc]
    · rw [if_neg he] at h
      rcases List.mem_cons.mp h with hobs | hmem
      · subst hobs
        refine ⟨fun hc => he (by simp [hc]), 1, ?_⟩
        rw [processBurst_eq]
        simp
      · obtain ⟨hne, m, hm⟩ := ih (processBurst k buffer b) obs hmem
        refine ⟨hne, m + 1, ?_⟩
        rw [hm, processBurst_eq]
        simp [List.take_succ_cons, List.map_append, List.filter_append, List.append_assoc]

/-- C1: for every sequence of complete lines however it is chunked into
bursts, the reader loop appends exactly the kept lines, in arrival order
(the final buffer equals the filter of the flattened line sequence,
independent of the chunking), and a waiter woken at a `notify()` only
ever observes the buffer at a whole-burst boundary: a non-empty prefix
of the kept lines corresponding to an integral number of bursts. -/
theorem C1_burst_drain : ∀ (keep : Bool) (bursts : List (List RawLine)),
    readLoopFinal keep bursts = (bursts.flatten.map decodeLine).filter (keepLine keep)
    ∧ ∀ obs ∈ readLoopNotifications keep bursts,
        obs ≠ []
        ∧ ∃ m, obs = ((bursts.take m).flatten.map decodeLine).filter (keepLine keep) := by
  intro keep bursts
  constructor
  · simpa [readLoopFinal] using readLoopGo_fst keep bursts []
  · intro obs h
    simpa using readLoopGo_notifications keep bursts [] obs h

/-- Witness for C1 at a concrete chunking: the first notification of the
run exposes exactly the kept lines of the first burst. -/
theorem C1_burst_drain_witness :
    (["OK1"] : List String) ≠ []
    ∧ ∃ m, (["OK1"] : List String)
        = ((([[RawLine.ascii "OK1\r\n", RawLine.ascii "junk\r\n"],
             [RawLine.ascii "at+recv=0\r\n"]].take m).flatten.map decodeLine).filter
            (keepLine false)) :=
  (C1_burst_drain false
      [[RawLine.ascii "OK1\r\n", RawLine.ascii "junk\r\n"],
       [RawLine.ascii "at+recv=0\r\n"]]).2 ["OK1"] (by decide)

/-- C2: `receive` with `single=True` removes and returns the oldest
buffered line; with `single=False` it removes and returns the whole
buffer, leaving it empty; in either mode the timeout error is raised
exactly when the wait resolves with an empty buffer. -/
theorem C2_receive_semantics : ∀ (single : Bool) (l : String) (rest : List String),
    receive single [] = .error .timeoutError
    ∧ receive true (l :: rest) = .ok (.one l, rest)
    ∧ receive false (l :: rest) = .ok (.all (l :: rest), []) := by
  intro single l rest
  exact ⟨rfl, rfl, rfl⟩

/-- C3: `Rak811Serial` defines no `get_response` or `get_events`
attribute, so every Dialect A `_send_command` and `_get_events` call
raises `AttributeError` no matter what command is sent or what lines
the module produced. -/
theorem C3_missing_serial_attributes :
    ∀ (command : String) (buffered : List String) (timeout : Option Nat),
      sendCommandA command buffered = .error (.attributeError "get_response")
      ∧ getEventsA timeout buffered = .error (.attributeError "get_events") := by
  intro command buffered timeout
  exact ⟨rfl, rfl⟩

/-- C4: the response-processing logic of Dialect A `_send_command` does
behave as the claim (and the unit tests) say — `"OK0"` yields `"0"`,
events are skipped, `"ERROR-1"` yields a response error with code `-1`,
an unrecognized line yields a response error carrying the raw text —
but the method itself never reaches that logic: it aborts on the
`get_response` attribute lookup. -/
theorem C4_send_command_attribute_error :
    sendCommandA "dr" ["OK0"] = .error (.attributeError "get_response")
    ∧ sendCommandProcess ["OK0"] = .ok "0"
    ∧ sendCommandProcess ["at+recv=2,0,0", "OK0"] = .ok "0"
    ∧ sendCommandProcess ["ERROR-1"]
        = .error (.responseErrorA (.int (-1)) "Invalid argument")
    ∧ sendCommandProcess ["Unexpected"]
        = .error (.responseErrorA (.str "Unexpected") "Unknown error") :=
  ⟨rfl, rfl, by decide, by decide, by decide⟩

/-! ## Lemmas about the classifier -/

lemma atPlusL_iff_startsWithL (cs : List Char) :
    atPlusL cs = true ↔ startsWithL ['a', 't'] cs = true := by
  match cs with
  | [] => simp [atPlusL, startsWithL]
  | [c] => simp [atPlusL, startsWithL]
  | c1 :: c2 :: rest =>
    simp only [atPlusL, startsWithL, Bool.and_eq_true, beq_iff_eq]
    exact ⟨fun h => ⟨h.1.symm, h.2.symm, trivial⟩, fun h => ⟨h.1.symm, h.2.1.symm⟩⟩

lemma taggedMatch_iff (line : String) :
    taggedMatch line = true
      ↔ (pyStartswith line "OK" = true ∨ pyStartswith line "ERROR" = true
          ∨ pyStartswith line "at" = true) := by
  show (startsWithL ['O', 'K'] line.data || startsWithL ['E', 'R', 'R', 'O', 'R'] line.data
      || atPlusL line.data) = true ↔ _
  have hat : atPlusL line.data = true ↔ pyStartswith line "at" = true :=
    atPlusL_iff_startsWithL line.data
  have hok : startsWithL ['O', 'K'] line.data = pyStartswith line "OK" := rfl
  have herr : startsWithL ['E', 'R', 'R', 'O', 'R'] line.data
      = pyStartswith line "ERROR" := rfl
  rw [hok, herr]
  simp only [Bool.or_eq_true, hat]
  tauto

/-- C5 counterexample: `"atx"` begins with none of the three recognized
literal marker strings (Dialect A markers `OK`, `ERROR`, `at+recv=`),
yet the reader loop appends it even with `keep_untagged` off, because
the classifier regex `^(OK|ERROR|at+)` accepts any line starting with
`"at"`. -/
theorem C5_counterexample_regex_at :
    processLine false [] (.ascii "atx") = ["atx"]
    ∧ specLiteralTagged RESPONSE_OK RESPONSE_ERROR RESPONSE_EVENT "atx" = false := by
  exact ⟨by decide, by decide⟩

/-- C5 amended: a decoded line is appended to the Pending Buffer if and
only if it begins with `OK`, with `ERROR`, or with `at` (the regex
`at+` accepts any line whose first two characters are `at`, which
covers every `at+recv=` event line but also lines with no recognized
marker), or the keep-untagged flag is set; the stored line is exactly
the decoded line, unmutated. -/
theorem C5_amended_classifier : ∀ (keep : Bool) (buffer : List String) (raw : RawLine),
    processLine keep buffer raw
      = (if keepLine keep (decodeLine raw) then buffer ++ [decodeLine raw] else buffer)
    ∧ (keepLine keep (decodeLine raw) = true
        ↔ (pyStartswith (decodeLine raw) "OK" = true
            ∨ pyStartswith (decodeLine raw) "ERROR" = true
            ∨ pyStartswith (decodeLine raw) "at" = true
            ∨ keep = true)) := by
  intro keep buffer raw
  refine ⟨rfl, ?_⟩
  show (taggedMatch _ || keep) = true ↔ _
  rw [Bool.or_eq_true, taggedMatch_iff]
  tauto

/-- C6 counterexample: marker strings are not configurable — the
constructor exposes no marker parameters and classification is the
fixed regex, so an instance serving the Dialect B protocol (markers
`OK `, `ERROR:`, `at+recv=`) still tags `"OK0"`, which none of its
dialect's markers matches. -/
theorem C6_counterexample_markers_fixed :
    taggedOf ⟨"/dev/ttyUSB0", 115200, 2, 5, true⟩ "OK0" = true
    ∧ specLiteralTagged V3_RESPONSE_OK V3_RESPONSE_ERROR RESPONSE_EVENT "OK0" = false := by
  exact ⟨by decide, by decide⟩

/-- C6 amended: the classifier's marker test is hard-coded in
`_read_loop`; any two instances, however configured, classify every
incoming line identically, and the only configuration that affects
buffering is the untagged-line retention flag. -/
theorem C6_amended_markers_fixed : ∀ (c c' : SerialConfig) (line : String),
    taggedOf c line = taggedOf c' line
    ∧ appendDecision c line = (taggedMatch line || c.keep_untagged) := by
  intro c c' line
  exact ⟨rfl, rfl⟩

/-! ## Lemmas about downlink parsing -/

lemma addDownlinkA_three (a b c : String) :
    addDownlinkA [a, b, c] = finishA (pyIntVal a) (.int 0) (.int 0) [b, c] := rfl

lemma addDownlinkA_five (a b c d e : String) :
    addDownlinkA [a, b, c, d, e]
      = finishA (pyIntVal a) (pyIntVal b) (pyIntVal c) [d, e] := rfl

lemma finishA_pos (P R S : PyVal) (l0 d : String) (rest : List String) (n : Int)
    (h : pyIntVal l0 = .int n) (hn : 0 < n) :
    finishA P R S (l0 :: d :: rest) = .ok ⟨P, R, S, .int n, hexDataA d⟩ := by
  have e1 : finishA P R S (l0 :: d :: rest)
      = finishLen P R S (pyIntVal l0) (d :: rest) := rfl
  rw [e1, h]
  simp [finishLen, hn]

/-- C7 counterexample: a received-data event whose length field is positive
but which carries no data field does not parse into a Downlink Record —
Dialect A's `_add_downlink` raises `IndexError` on `event[0]`, and
Dialect B's raises `TypeError` on `bytes.fromhex(None)` (the combined
regex matches `"1,-65,6,2"` with an absent data group). -/
theorem C7_counterexample_missing_data :
    addDownlinkA ["1", "1"] = .error .indexError
    ∧ processOneB "1,-65,6,2" = .error .typeError :=
  ⟨by decide, by decide⟩

/-- C7 amended: every received-data event that carries a data field
(which the layouts always do when the length is positive) parses into a
Downlink Record as claimed — Dialect A disambiguates by field count
with rssi/snr defaulting to `0` when absent, and the status-stripped
fields `1,0,0,1,55` yield port 1, rssi 0, snr 0, len 1, data `0x55`;
Dialect B matches the combined regex, an absent port defaults to `0`,
`"1,-65,6,2:4865"` yields port 1, rssi -65, snr 6, len 2, data
`0x4865`, and a non-matching event raises the Invalid-Event response
error (code 998).  A matching event with positive length and no data
field instead crashes (see the counterexample). -/
theorem C7_amended_downlink_parse :
    ∀ (p r s l d ev : String) (n : Int),
      (pyIntVal l = .int n → 0 < n →
        addDownlinkA [p, l, d]
            = .ok ⟨pyIntVal p, .int 0, .int 0, .int n, hexDataA d⟩
        ∧ addDownlinkA [p, r, s, l, d]
            = .ok ⟨pyIntVal p, pyIntVal r, pyIntVal s, .int n, hexDataA d⟩)
      ∧ addDownlinkA ["1", "0", "0", "1", "55"]
          = .ok ⟨.int 1, .int 0, .int 0, .int 1, .bytes [85]⟩
      ∧ processOneB "1,-65,6,2:4865"
          = .ok ⟨.int 1, .int (-65), .int 6, .int 2, .bytes [72, 101]⟩
      ∧ processOneB "-65,6,2:4865"
          = .ok ⟨.int 0, .int (-65), .int 6, .int 2, .bytes [72, 101]⟩
      ∧ (eventMatchB ev = none →
          processOneB ev
            = .error (.responseErrorB (.int 998) (strerrorB (.int 998)))) := by
  intro p r s l d ev n
  refine ⟨fun h hn => ⟨?_, ?_⟩, by decide, by decide, by decide, fun h => ?_⟩
  · rw [addDownlinkA_three, finishA_pos _ _ _ l d [] n h hn]
  · rw [addDownlinkA_five, finishA_pos _ _ _ l d [] n h hn]
  · simp [processOneB, h]

/-- Witness for C7 amended: the three-field layout with defaults, and the
invalid-event error on a non-matching Dialect B event. -/
theorem C7_amended_downlink_parse_witness :
    addDownlinkA ["1", "1", "55"] = .ok ⟨.int 1, .int 0, .int 0, .int 1, .bytes [85]⟩
    ∧ processOneB "junk"
        = .error (.responseErrorB (.int 998) "Invalid event received") :=
  ⟨((C7_amended_downlink_parse "1" "0" "0" "1" "55" "junk" 1).1
      (by decide) (by decide)).1,
   (C7_amended_downlink_parse "1" "0" "0" "1" "55" "junk" 1).2.2.2.2 (by decide)⟩

/-! ## Lemmas about the v3 command-list scan -/

lemma isTerminalB_false {r : String} (h : isTerminalB r = false) :
    pyStartswith r V3_RESPONSE_OK = false
    ∧ pyStartswith r V3_RESPONSE_INIT_OK = false
    ∧ pyStartswith r V3_RESPONSE_ERROR = false := by
  have h2 := h
  simp only [isTerminalB, Bool.or_eq_false_iff] at h2
  exact ⟨h2.1.1, h2.1.2, h2.2⟩

lemma sclBatch_skip (pre : List String) :
    ∀ (acc cur : List String), (∀ l ∈ pre, isTerminalB l = false) →
      sclBatch acc (pre ++ cur) = sclBatch (acc ++ pre) cur := by
  induction pre with
  | nil => intro acc cur _; simp
  | cons r pre' ih =>
    intro acc cur h
    obtain ⟨hok, hinit, herr⟩ := isTerminalB_false (h r (List.mem_cons_self r pre'))
    show sclBatch acc (r :: (pre' ++ cur)) = _
    simp only [sclBatch, hok, hinit, herr, Bool.false_eq_true, if_false]
    rw [ih (acc ++ [r]) cur (fun l hl => h l (List.mem_cons_of_mem r hl))]
    simp [List.append_assoc]

/-- C8 counterexample: when the batch holding the success terminal line has
further lines after it, `_send_command_list` returns those trailing
lines too — including an un-examined `ERROR:` line, which does not
abort the call — so the result is not the informational lines plus the
trimmed terminal line. -/
theorem C8_counterexample_trailing_lines :
    sendCommandList [["OK hello", "ERROR:2"]] = .ok ["hello", "ERROR:2"]
    ∧ sendCommandList [["OK hello", "ERROR:2"]] ≠ .ok ["hello"] :=
  ⟨by decide, by decide⟩

/-- C8 amended: `_send_command_list` examines lines in arrival order, batch
by batch; every examined line before the first terminal-marked line is
accumulated in order; a batch exhausted without a terminal line carries
the accumulated lines over to the next batch; on a success terminal
line (`OK ` or, failing that, `Initialization OK`) its marker is
stripped and the call returns the accumulated lines, the trimmed
terminal line, and the not-yet-examined remainder of that batch; an
examined `ERROR:` line aborts with a Response Error carrying the
parsed code; exhausting all batches raises the read timeout. -/
theorem C8_amended_command_list :
    ∀ (acc pre post : List String) (t : String) (bs : List (List String)),
      (∀ l ∈ pre, isTerminalB l = false) →
      ( (pyStartswith t V3_RESPONSE_OK = true →
          sclBatches acc ((pre ++ t :: post) :: bs)
            = .ok (acc ++ pre ++ pyDropChars t (pyLen V3_RESPONSE_OK) :: post))
      ∧ (pyStartswith t V3_RESPONSE_OK = false →
         pyStartswith t V3_RESPONSE_INIT_OK = true →
          sclBatches acc ((pre ++ t :: post) :: bs)
            = .ok (acc ++ pre ++ pyDropChars t (pyLen V3_RESPONSE_INIT_OK) :: post))
      ∧ (pyStartswith t V3_RESPONSE_OK = false →
         pyStartswith t V3_RESPONSE_INIT_OK = false →
         pyStartswith t V3_RESPONSE_ERROR = true →
          sclBatches acc ((pre ++ t :: post) :: bs)
            = .error (mkResponseErrorB (pyDropChars t (pyLen V3_RESPONSE_ERROR))))
      ∧ sclBatches acc (pre :: bs) = sclBatches (acc ++ pre) bs
      ∧ sclBatches acc [] = .error .timeoutError ) := by
  intro acc pre post t bs h
  have hskip : ∀ cur, sclBatch acc (pre ++ cur) = sclBatch (acc ++ pre) cur :=
    fun cur => sclBatch_skip pre acc cur h
  refine ⟨fun hok => ?_, fun hok hinit => ?_, fun hok hinit herr => ?_, ?_, rfl⟩
  · show (match sclBatch acc (pre ++ t :: post) with
          | .ok lines => Except.ok lines
          | .err e => Except.error e
          | .more acc2 => sclBatches acc2 bs) = _
    rw [hskip (t :: post)]
    simp [sclBatch, hok]
  · show (match sclBatch acc (pre ++ t :: post) with
          | .ok lines => Except.ok lines
          | .err e => Except.error e
          | .more acc2 => sclBatches acc2 bs) = _
    rw [hskip (t :: post)]
    simp [sclBatch, hok, hinit]
  · show (match sclBatch acc (pre ++ t :: post) with
          | .ok lines => Except.ok lines
          | .err e => Except.error e
          | .more acc2 => sclBatches acc2 bs) = _
    rw [hskip (t :: post)]
    simp [sclBatch, hok, hinit, herr]
  · show (match sclBatch acc pre with
          | .ok lines => Except.ok lines
          | .err e => Except.error e
          | .more acc2 => sclBatches acc2 bs) = _
    have : sclBatch acc pre = .more (acc ++ pre) := by
      have := hskip []
      rw [List.append_nil] at this
      rw [this]
      rfl
    rw [this]

/-- Witness for C8 amended: one informational line followed by a stripped
`OK ` terminal line. -/
theorem C8_amended_command_list_witness :
    sclBatches [] [["boot", "OK v3"]] = .ok ["boot", "v3"] :=
  (C8_amended_command_list [] ["boot"] [] "OK v3" [] (by decide)).1 (by decide)

/-! ## Lemmas about the v3 send-command timeouts -/

lemma scV3Go_waits (rt : Nat) (term : String) (rest : List String)
    (hterm : isTerminalB term = true) :
    ∀ (skipped : List String) (w : Nat), (∀ l ∈ skipped, isTerminalB l = false) →
      (scV3Go rt w (skipped ++ term :: rest)).1
        = w :: List.replicate skipped.length rt := by
  intro skipped
  induction skipped with
  | nil => intro w _; simp [scV3Go, hterm]
  | cons l ls ih =>
    intro w h
    have hl := h l (List.mem_cons_self l ls)
    show (scV3Go rt w (l :: (ls ++ term :: rest))).1 = _
    simp only [scV3Go, hl, Bool.false_eq_true, if_false]
    rw [ih rt (fun x hx => h x (List.mem_cons_of_mem l hx))]
    simp [List.replicate_succ]

/-- C9: in v3 `_send_command` the caller's timeout bounds only the first
`receive`; each `receive` performed while skipping non-terminal lines
is called with the driver's default response timeout, so with `k`
skipped lines the timeouts used are `t, rt, rt, ..., rt` (`k` times) —
the total possible blocking time is `t + k * rt`, not bounded by `t`. -/
theorem C9_default_timeout_after_first :
    ∀ (rt t : Nat) (skipped : List String) (term : String) (rest : List String),
      (∀ l ∈ skipped, isTerminalB l = false) → isTerminalB term = true →
      (sendCommandV3 rt (some t) (skipped ++ term :: rest)).1
        = t :: List.replicate skipped.length rt := by
  intro rt t skipped term rest h hterm
  exact scV3Go_waits rt term rest hterm skipped t h

/-- Witness for C9: with a caller timeout of 1, a default of 5 and two
skipped lines, the waits used are `[1, 5, 5]`. -/
theorem C9_default_timeout_after_first_witness :
    (sendCommandV3 5 (some 1) ["at+recv=1,2", "junk", "OK hello"]).1 = [1, 5, 5] :=
  C9_default_timeout_after_first 5 1 ["at+recv=1,2", "junk"] "OK hello" []
    (by decide) (by decide)

/-! ## Lemmas about the two event passes -/

lemma pass1A_append (evs : List String) :
    ∀ dl, pass1A evs dl = (dl ++ (pass1A evs []).1, (pass1A evs []).2) := by
  induction evs with
  | nil => intro dl; simp [pass1A]
  | cons ev evs ih =>
    intro dl
    by_cases hs : statusOf ev = .int 0
    · simp only [pass1A, if_pos hs]
      cases hadd : addDownlinkA (fieldsAfterStatus ev) with
      | ok d =>
        show pass1A evs (dl ++ [d])
          = (dl ++ (pass1A evs ([] ++ [d])).1, (pass1A evs ([] ++ [d])).2)
        rw [List.nil_append, ih (dl ++ [d]), ih [d]]
        simp [List.append_assoc]
      | error e => simp
    · simp only [pass1A, if_neg hs]
      exact ih dl

lemma pass2A_eq_firstBad (evs : List String) :
    pass2A evs = (firstBadA evs).map mkEventErrorA := by
  induction evs with
  | nil => rfl
  | cons ev evs ih =>
    by_cases h : goodStatus (statusOf ev) = true
    · simp [pass2A, firstBadA, List.find?_cons, h, ih]
    · simp [pass2A, firstBadA, List.find?_cons, h]

/-- C10: the downlink-extraction pass of Dialect A `_process_events` runs
over the whole batch before the error-check pass: when every
received-data event of the batch parses and some event has a status
outside the accepted codes, the call raises `Rak811EventError` for the
first such status, yet the downlink list already holds every
received-data record of the batch — including those positioned after
the failing event — and they remain retrievable afterwards. -/
theorem C10_two_pass_events :
    ∀ (events : List String) (dl ds : List Downlink) (s : PyVal),
      pass1A events [] = (ds, none) →
      firstBadA events = some s →
      processEventsA events dl = (dl ++ ds, some (mkEventErrorA s))
      ∧ ∀ d ∈ ds, d ∈ (processEventsA events dl).1 := by
  intro events dl ds s h1 hbad
  have hp : pass1A events dl = (dl ++ ds, none) := by
    rw [pass1A_append events dl, h1]
  have h2 : pass2A events = some (mkEventErrorA s) := by
    rw [pass2A_eq_firstBad, hbad]
    rfl
  have hmain : processEventsA events dl = (dl ++ ds, some (mkEventErrorA s)) := by
    simp [processEventsA, hp, h2]
  refine ⟨hmain, fun d hd => ?_⟩
  rw [hmain]
  exact List.mem_append_right dl hd

/-- Witness for C10: a failing join event followed by a received-data
event; the downlink parsed from the later event survives the raised
`Rak811EventError` (status 4, 'Join failed'). -/
theorem C10_two_pass_events_witness :
    processEventsA ["4,0,0", "0,1,0,0,1,55"] []
      = ([⟨.int 1, .int 0, .int 0, .int 1, .bytes [85]⟩],
         some (.eventError (.int 4) "Join failed")) :=
  (C10_two_pass_events ["4,0,0", "0,1,0,0,1,55"] []
      [⟨.int 1, .int 0, .int 0, .int 1, .bytes [85]⟩] (.int 4)
      (by decide) (by decide)).1

end Rak811Spec
